import Mathlib

/-!
Shallow embedding of `src/wikipedia_scraper.py` (class `WikipediaScraper`).

Python strings are modelled as `List Char` (Python slicing `s[:n]` is
`List.take n`, `len` is `List.length`, `+` is `++`).  The external
`wikipediaapi` provider is modelled as a `Page` record; effectful parts
(the timestamp `datetime.now()`, the provider lookup) are passed in as
explicit arguments.  File writes are modelled as the list of
(filename, content) artifacts a run produces.
-/

namespace WikipediaScraper

/-- Python `needle == hay[:len(needle)]`: the first list is a prefix of the second. -/
def isPrefixChars : List Char → List Char → Bool
  | [], _ => true
  | _ :: _, [] => false
  | a :: as, b :: bs => a == b && isPrefixChars as bs

/-- Python `needle in hay` on strings: contiguous substring test. -/
def containsSub : List Char → List Char → Bool
  | [], needle => isPrefixChars needle []
  | h :: t, needle => isPrefixChars needle (h :: t) || containsSub t needle

/-- Python `str.strip()`: drop leading and trailing whitespace.
`Char.isWhitespace` approximates Python's whitespace set; the two agree on
every ASCII title, and the theorems below that involve `pyStrip` pin its
behaviour on the concrete titles they use by hypothesis, so the
approximation carries no weight in any claim. -/
def pyStrip (s : List Char) : List Char :=
  ((s.dropWhile Char.isWhitespace).reverse.dropWhile Char.isWhitespace).reverse

/-- One character of the sanitizer in `save_to_markdown` / `save_to_json` /
`save_to_text`: `c if c.isalnum() or c in (' ', '-', '_') else '_'`.
Python's `c.isalnum()` is Unicode-aware (kanji and accented letters count as
alphanumeric); its Unicode tables live in the Python runtime, outside this
repository, so the embedding is parametric in that classification
(`isalnum`).  Every sanitizer theorem below holds for every classification,
hence in particular for the real Unicode-aware one. -/
def sanitizeChar (isalnum : Char → Bool) (c : Char) : Char :=
  if isalnum c || c == ' ' || c == '-' || c == '_' then c else '_'

/-- The filename sanitizer
`"".join(c if c.isalnum() or c in (' ', '-', '_') else '_' for c in title)`,
parametric in the runtime's `isalnum` classification. -/
def sanitize (isalnum : Char → Bool) (title : List Char) : List Char :=
  title.map (sanitizeChar isalnum)

mutual
/-- A provider-side section object (`wikipediaapi` section): own title, own
text, ordered subsections. -/
inductive PySection : Type where
  | mk : List Char → List Char → PySecList → PySection
  deriving DecidableEq
/-- The ordered subsection sequence of a provider-side section. -/
inductive PySecList : Type where
  | nil : PySecList
  | cons : PySection → PySecList → PySecList
  deriving DecidableEq
end

def sectionTitle : PySection → List Char
  | .mk t _ _ => t

def sectionText : PySection → List Char
  | .mk _ x _ => x

def subsectionsOf : PySection → PySecList
  | .mk _ _ ss => ss

mutual
/-- One node of the dict tree built by `_get_sections`:
`{'title': ..., 'level': ..., 'text': ..., 'subsections': [...]}`. -/
inductive SectionInfo : Type where
  | mk : List Char → Nat → List Char → SecInfoList → SectionInfo
  deriving DecidableEq
/-- The list of section-info dicts returned by `_get_sections`. -/
inductive SecInfoList : Type where
  | nil : SecInfoList
  | cons : SectionInfo → SecInfoList → SecInfoList
  deriving DecidableEq
end

def infoTitle : SectionInfo → List Char
  | .mk t _ _ _ => t

def infoLevel : SectionInfo → Nat
  | .mk _ lv _ _ => lv

def infoText : SectionInfo → List Char
  | .mk _ _ x _ => x

def infoSubs : SectionInfo → SecInfoList
  | .mk _ _ _ ss => ss

/-- The ellipsis marker `'...'` appended by `_get_sections` when truncating. -/
def ellipsis : List Char := ['.', '.', '.']

/-- Line 120 of the source:
`s.text[:500] + '...' if len(s.text) > 500 else s.text`. -/
def truncText (t : List Char) : List Char :=
  if t.length > 500 then t.take 500 ++ ellipsis else t

mutual
/-- The body of the loop in `_get_sections`: one section `s` at nesting
`level` becomes one info dict whose `subsections` are the recursive result
at `level + 1`. -/
def getSection (level : Nat) : PySection → SectionInfo
  | .mk t x subs => .mk t level (truncText x) (getSectionL (level + 1) subs)
/-- `_get_sections(page, section, level)`: map the loop body over
`section.sections`, preserving order. -/
def getSectionL (level : Nat) : PySecList → SecInfoList
  | .nil => .nil
  | .cons s rest => .cons (getSection level s) (getSectionL level rest)
end

mutual
/-- Nesting depth of a provider-side section (the node itself counts 1). -/
def srcDepth1 : PySection → Nat
  | .mk _ _ subs => 1 + srcDepthL subs
/-- Maximum nesting depth over a provider-side section list. -/
def srcDepthL : PySecList → Nat
  | .nil => 0
  | .cons s rest => max (srcDepth1 s) (srcDepthL rest)
end

mutual
/-- Nesting depth of an extracted section-info node. -/
def infoDepth1 : SectionInfo → Nat
  | .mk _ _ _ subs => 1 + infoDepthL subs
/-- Maximum nesting depth over an extracted section-info list. -/
def infoDepthL : SecInfoList → Nat
  | .nil => 0
  | .cons s rest => max (infoDepth1 s) (infoDepthL rest)
end

/-- A single chain of sections nested `n + 1` levels deep, with empty titles
and texts: adversarial input for the depth question. -/
def chain : Nat → PySection
  | 0 => .mk [] [] .nil
  | n + 1 => .mk [] [] (.cons (chain n) .nil)

mutual
/-- All provider-side sections of a tree, the root included. -/
def collectSrc1 : PySection → List PySection
  | .mk t x subs => .mk t x subs :: collectSrcL subs
/-- All provider-side sections occurring in a section list. -/
def collectSrcL : PySecList → List PySection
  | .nil => []
  | .cons s rest => collectSrc1 s ++ collectSrcL rest
end

mutual
/-- All extracted nodes of a section-info tree, the root included. -/
def collectInfo1 : SectionInfo → List SectionInfo
  | .mk t lv x subs => .mk t lv x subs :: collectInfoL subs
/-- All extracted nodes occurring in a section-info list. -/
def collectInfoL : SecInfoList → List SectionInfo
  | .nil => []
  | .cons s rest => collectInfo1 s ++ collectInfoL rest
end

/-- The dict returned by `_get_links`. -/
structure LinksInfo where
  internal_links : List (List Char)
  internal_links_count : Nat
  deriving DecidableEq

/-- The `try` branch of `_get_links`:
`internal_links = list(page.links.keys())[:100]`, count `len(page.links)`.
The argument is the provider's full link-key sequence. -/
def getLinks (links : List (List Char)) : LinksInfo :=
  { internal_links := links.take 100
    internal_links_count := links.length }

/-- The `except` branch of `_get_links`: empty list and zero count. -/
def getLinksDegraded : LinksInfo :=
  { internal_links := [], internal_links_count := 0 }

/-- The fixed keyword set of `_get_references`:
`['参考', '脚注', '出典', 'references', 'notes']`. -/
def refKeywords : List (List Char) :=
  [("参考").toList, ("脚注").toList, ("出典").toList,
   ("references").toList, ("notes").toList]

/-- The match test of `_get_references`:
`any(keyword in section.title.lower() for keyword in [...])`. -/
def titleMatches (title : List Char) : Bool :=
  refKeywords.any (fun k => containsSub (title.map Char.toLower) k)

/-- The scan loop of `_get_references` over `page.sections`: first section
whose title matches sets `references_section` and `break`s; no match leaves
the initial `""`. -/
def findRefSection : List PySection → List Char
  | [] => []
  | s :: rest =>
      if titleMatches (sectionTitle s) then sectionText s else findRefSection rest

/-- The dict returned by `_get_references`. -/
structure RefsInfo where
  has_references_section : Bool
  references_text : List Char
  deriving DecidableEq

/-- `_get_references`: `has_references_section = bool(references_section)`;
`references_text = references_section[:1000] if references_section else ""`.
The argument is the provider page's top-level section list. -/
def getReferences (tops : List PySection) : RefsInfo :=
  let rs := findRefSection tops
  { has_references_section := !rs.isEmpty
    references_text := if rs.isEmpty then [] else rs.take 1000 }

/-- A provider page as seen through `wikipediaapi` (the external
collaborator): existence flag, metadata, text, categories, top-level section
objects, link keys.  `topSections` is `page.sections` both as the input of
`_get_sections` (nested) and of `_get_references` (top level scan). -/
structure Page where
  pageExists : Bool
  title : List Char
  pageid : Nat
  fullurl : List Char
  canonicalurl : List Char
  summary : List Char
  text : List Char
  categories : List (List Char)
  topSections : PySecList
  links : List (List Char)

/-- Top-level sections of a page as an ordinary list, for the scan in
`_get_references` (which iterates `page.sections` without recursing). -/
def topSectionList : PySecList → List PySection
  | .nil => []
  | .cons s rest => s :: topSectionList rest

/-- `search_page`: return the page when `page.exists()`, else `None`. -/
def search_page (page : Page) : Option Page :=
  if page.pageExists then some page else none

/-- The `try` branch of `_get_categories`: the provider's category keys in
order. -/
def getCategories (page : Page) : List (List Char) :=
  page.categories

/-- The dict built by `get_all_data` (the Article Snapshot). -/
structure ArticleData where
  title : List Char
  pageid : Nat
  url : List Char
  canonical_url : List Char
  language : List Char
  timestamp : List Char
  summary : List Char
  full_text : List Char
  categories : List (List Char)
  sections : SecInfoList
  links : LinksInfo
  references : RefsInfo
  backlinks : List (List Char)

/-- `get_all_data`: `search_page`, then assemble the snapshot dict.
`language` is the scraper's language; `now` is the value of
`datetime.now().isoformat()` at build time, passed explicitly because it is
effectful in the source; it is stamped exactly once here. -/
def get_all_data (language now : List Char) (page : Page) : Option ArticleData :=
  match search_page page with
  | none => none
  | some p => some
      { title := p.title
        pageid := p.pageid
        url := p.fullurl
        canonical_url := p.canonicalurl
        language := language
        timestamp := now
        summary := p.summary
        full_text := p.text
        categories := getCategories p
        sections := getSectionL 0 p.topSections
        links := getLinks p.links
        references := getReferences (topSectionList p.topSections)
        backlinks := [] }

/-- Decimal rendering of a number interpolated into an f-string. -/
def digits (n : Nat) : List Char := Nat.toDigits 10 n

mutual
/-- The loop body of `_write_sections_markdown` for one section dict:
`"  " * indent + "- "` then `**title** (レベル level)`, then the recursive
call on the subsections at `indent + 1` when they are nonempty. -/
def writeSectionsMd1 (indent : Nat) : SectionInfo → List Char
  | .mk t lv _ subs =>
      (List.replicate indent ("  ").toList).flatten ++ ("- ").toList
        ++ ("**").toList ++ t ++ ("** (レベル ").toList ++ digits lv ++ (")\n").toList
        ++ (match subs with
            | .nil => []
            | .cons s rest => writeSectionsMdL (indent + 1) (.cons s rest))
/-- `_write_sections_markdown(f, sections, indent)`: concatenation of the
lines written for each section dict in order. -/
def writeSectionsMdL (indent : Nat) : SecInfoList → List Char
  | .nil => []
  | .cons s rest => writeSectionsMd1 indent s ++ writeSectionsMdL indent rest
end

/-- Header block of `save_to_markdown` (lines 187-192): title, page id, URL,
language, timestamp, separator. -/
def mdHeader (d : ArticleData) : List Char :=
  ("# ").toList ++ d.title ++ ("\n\n").toList
    ++ ("**ページID**: ").toList ++ digits d.pageid ++ ("  \n").toList
    ++ ("**URL**: ").toList ++ d.url ++ ("  \n").toList
    ++ ("**言語**: ").toList ++ d.language ++ ("  \n").toList
    ++ ("**取得日時**: ").toList ++ d.timestamp ++ ("  \n\n").toList
    ++ ("---\n\n").toList

/-- Summary block of `save_to_markdown` (lines 195-197). -/
def mdSummaryBlock (d : ArticleData) : List Char :=
  ("## 要約\n\n").toList ++ d.summary ++ ("\n\n").toList ++ ("---\n\n").toList

/-- Category block of `save_to_markdown` (lines 200-206): written only when
`data['categories']` is nonempty; at most 20 listed, with an
`（他 N 件）` note when more than 20 exist. -/
def mdCategoriesBlock (cats : List (List Char)) : List Char :=
  if cats.isEmpty then []
  else
    ("## カテゴリ\n\n").toList
      ++ ((cats.take 20).map (fun c => ("- ").toList ++ c ++ ['\n'])).flatten
      ++ (if cats.length > 20 then
            ("\n（他 ").toList ++ digits (cats.length - 20) ++ (" 件）\n").toList
          else [])
      ++ ("\n---\n\n").toList

/-- Section block of `save_to_markdown` (lines 209-212): written only when
`data['sections']` is nonempty. -/
def mdSectionsBlock (secs : SecInfoList) : List Char :=
  match secs with
  | .nil => []
  | .cons s rest =>
      ("## セクション構造\n\n").toList ++ writeSectionsMdL 0 (.cons s rest)
        ++ ("\n---\n\n").toList

/-- Body block of `save_to_markdown` (lines 215-217). -/
def mdBodyBlock (d : ArticleData) : List Char :=
  ("## 本文\n\n").toList ++ d.full_text ++ ("\n\n").toList ++ ("---\n\n").toList

/-- Link block of `save_to_markdown` (lines 220-228): the count line is
always written; when the retained list is nonempty, up to 50 links are
listed and an `（他 N 件）` note is written with
`N = len(data['links']['internal_links']) - 50` when the retained list
exceeds 50 entries. -/
def mdLinksBlock (li : LinksInfo) : List Char :=
  ("## リンク情報\n\n").toList
    ++ ("**内部リンク総数**: ").toList ++ digits li.internal_links_count ++ ("\n\n").toList
    ++ (if li.internal_links.isEmpty then []
        else
          ("### 主要な内部リンク（最大100件）\n\n").toList
            ++ ((li.internal_links.take 50).map (fun l => ("- ").toList ++ l ++ ['\n'])).flatten
            ++ (if li.internal_links.length > 50 then
                  ("\n（他 ").toList ++ digits (li.internal_links.length - 50)
                    ++ (" 件）\n").toList
                else []))
    ++ ("\n---\n\n").toList

/-- Reference block of `save_to_markdown` (lines 231-233): written only when
`has_references_section` is true. -/
def mdRefsBlock (r : RefsInfo) : List Char :=
  if r.has_references_section then
    ("## 参照・脚注\n\n").toList ++ r.references_text ++ ("\n\n").toList
  else []

/-- Full content written by `save_to_markdown`, block by block in source
order. -/
def mdContent (d : ArticleData) : List Char :=
  mdHeader d ++ mdSummaryBlock d ++ mdCategoriesBlock d.categories
    ++ mdSectionsBlock d.sections ++ mdBodyBlock d
    ++ mdLinksBlock d.links ++ mdRefsBlock d.references

/-- The `"=" * 70 + "\n\n"` separator of `save_to_text`. -/
def txtSep : List Char := List.replicate 70 '=' ++ ("\n\n").toList

/-- Header lines of `save_to_text` (lines 267-272). -/
def txtHeader (d : ArticleData) : List Char :=
  ("タイトル: ").toList ++ d.title ++ ['\n']
    ++ ("ページID: ").toList ++ digits d.pageid ++ ['\n']
    ++ ("URL: ").toList ++ d.url ++ ['\n']
    ++ ("言語: ").toList ++ d.language ++ ['\n']
    ++ ("取得日時: ").toList ++ d.timestamp ++ ['\n']
    ++ txtSep

/-- Category block of `save_to_text` (lines 278-282): written only when
`data['categories']` is nonempty; the full list, no cap. -/
def txtCategoriesBlock (cats : List (List Char)) : List Char :=
  if cats.isEmpty then []
  else
    ("【カテゴリ】\n").toList
      ++ (cats.map (fun c => ("  - ").toList ++ c ++ ['\n'])).flatten
      ++ ['\n'] ++ txtSep

/-- Full content written by `save_to_text`: header, summary, categories,
body, link count; no section tree, no link list, no reference excerpt. -/
def txtContent (d : ArticleData) : List Char :=
  txtHeader d
    ++ ("【要約】\n").toList ++ d.summary ++ ("\n\n").toList ++ txtSep
    ++ txtCategoriesBlock d.categories
    ++ ("【本文】\n").toList ++ d.full_text ++ ("\n\n").toList ++ txtSep
    ++ ("【リンク情報】\n").toList
    ++ ("内部リンク数: ").toList ++ digits d.links.internal_links_count ++ ("\n\n").toList

/-- One output artifact of a run.  The structured (JSON) export carries the
snapshot verbatim (`json.dump(data, ...)` serializes every field of the
dict faithfully), so its payload is the `ArticleData` itself. -/
inductive OutputFile where
  | mdFile : List Char → List Char → OutputFile
  | jsonFile : List Char → ArticleData → OutputFile
  | txtFile : List Char → List Char → OutputFile

/-- The filename of an output artifact. -/
def outputName : OutputFile → List Char
  | .mdFile n _ => n
  | .jsonFile n _ => n
  | .txtFile n _ => n

/-- `save_to_markdown`: filename `{safe_title}_complete.md` from the
requested title, content as rendered above. -/
def save_to_markdown (isalnum : Char → Bool) (title : List Char) (d : ArticleData) :
    OutputFile :=
  .mdFile (sanitize isalnum title ++ ("_complete.md").toList) (mdContent d)

/-- `save_to_json`: filename `{safe_title}_complete.json`, payload the whole
snapshot dict. -/
def save_to_json (isalnum : Char → Bool) (title : List Char) (d : ArticleData) :
    OutputFile :=
  .jsonFile (sanitize isalnum title ++ ("_complete.json").toList) d

/-- `save_to_text`: filename `{safe_title}_complete.txt`, content as
rendered above. -/
def save_to_text (isalnum : Char → Bool) (title : List Char) (d : ArticleData) :
    OutputFile :=
  .txtFile (sanitize isalnum title ++ ("_complete.txt").toList) (txtContent d)

/-- The `--format` selector. -/
inductive OutputFormat where
  | markdown | json | text | all
  deriving DecidableEq

/-- `process_single`: build the snapshot; when it exists, write the files
selected by the format, in source order markdown, json, text; when the
build fails, write nothing.  The provider is a function from title to page;
`now` is the build-time timestamp. -/
def process_single (provider : List Char → Page) (isalnum : Char → Bool)
    (language now : List Char) (fmt : OutputFormat) (title : List Char) :
    List OutputFile :=
  match get_all_data language now (provider title) with
  | none => []
  | some d =>
      (if fmt = .markdown ∨ fmt = .all then [save_to_markdown isalnum title d] else [])
        ++ (if fmt = .json ∨ fmt = .all then [save_to_json isalnum title d] else [])
        ++ (if fmt = .text ∨ fmt = .all then [save_to_text isalnum title d] else [])

/-- `process_multiple`: `titles = [line.strip() for line in f if line.strip()]`,
then `process_single` on each title in order; the produced artifacts are
concatenated. -/
def process_multiple (provider : List Char → Page) (isalnum : Char → Bool)
    (language now : List Char) (fmt : OutputFormat) (rawLines : List (List Char)) :
    List OutputFile :=
  let titles := (rawLines.map pyStrip).filter (fun l => !l.isEmpty)
  titles.flatMap (fun t => process_single provider isalnum language now fmt t)

/-! Helper lemmas -/

theorem sanitizeChar_idem (isalnum : Char → Bool) (c : Char) :
    sanitizeChar isalnum (sanitizeChar isalnum c) = sanitizeChar isalnum c := by
  unfold sanitizeChar
  by_cases h : (isalnum c || c == ' ' || c == '-' || c == '_') = true
  · simp [h]
  · simp [h]

mutual
theorem depth_preserved1 (level : Nat) :
    ∀ s : PySection, infoDepth1 (getSection level s) = srcDepth1 s
  | .mk t x subs => by
      simp [getSection, infoDepth1, srcDepth1, depth_preservedL (level + 1) subs]
theorem depth_preservedL (level : Nat) :
    ∀ ss : PySecList, infoDepthL (getSectionL level ss) = srcDepthL ss
  | .nil => rfl
  | .cons s rest => by
      simp [getSectionL, infoDepthL, srcDepthL, depth_preserved1 level s,
        depth_preservedL level rest]
end

theorem chain_depth : ∀ n : Nat, srcDepth1 (chain n) = n + 1
  | 0 => rfl
  | n + 1 => by simp [chain, srcDepth1, srcDepthL, chain_depth n]; omega

mutual
theorem nodeFrom1 (level : Nat) :
    ∀ s : PySection, ∀ n ∈ collectInfo1 (getSection level s),
      ∃ s2, s2 ∈ collectSrc1 s ∧ infoText n = truncText (sectionText s2)
  | .mk t x subs => by
      intro n hn
      simp only [getSection, collectInfo1, List.mem_cons] at hn
      rcases hn with h | h
      · exact ⟨.mk t x subs, by simp [collectSrc1], by
          simp [h, infoText, sectionText]⟩
      · obtain ⟨s2, hs2, hx⟩ := nodeFromL (level + 1) subs n h
        exact ⟨s2, by simp [collectSrc1, hs2], hx⟩
theorem nodeFromL (level : Nat) :
    ∀ ss : PySecList, ∀ n ∈ collectInfoL (getSectionL level ss),
      ∃ s2, s2 ∈ collectSrcL ss ∧ infoText n = truncText (sectionText s2)
  | .nil => by intro n hn; simp [getSectionL, collectInfoL] at hn
  | .cons s rest => by
      intro n hn
      simp only [getSectionL, collectInfoL, List.mem_append] at hn
      rcases hn with h | h
      · obtain ⟨s2, hs2, hx⟩ := nodeFrom1 level s n h
        exact ⟨s2, by simp [collectSrcL, hs2], hx⟩
      · obtain ⟨s2, hs2, hx⟩ := nodeFromL level rest n h
        exact ⟨s2, by simp [collectSrcL, hs2], hx⟩
end

theorem findRef_none :
    ∀ tops : List PySection, (∀ s ∈ tops, titleMatches (sectionTitle s) = false) →
      findRefSection tops = []
  | [], _ => rfl
  | s :: rest, h => by
      have hs := h s (by simp)
      have ih := findRef_none rest (fun s2 hs2 => h s2 (by simp [hs2]))
      simp [findRefSection, hs, ih]

theorem findRef_first :
    ∀ (pre : List PySection) (s : PySection) (post : List PySection),
      (∀ s2 ∈ pre, titleMatches (sectionTitle s2) = false) →
      titleMatches (sectionTitle s) = true →
      findRefSection (pre ++ s :: post) = sectionText s
  | [], s, post, _, hs => by simp [findRefSection, hs]
  | p :: pre, s, post, hpre, hs => by
      have hp := hpre p (by simp)
      have ih := findRef_first pre s post (fun s2 hs2 => hpre s2 (by simp [hs2])) hs
      simp [findRefSection, hp, ih]

theorem refs_text_le_1000 (tops : List PySection) :
    ((getReferences tops).references_text).length ≤ 1000 := by
  unfold getReferences
  by_cases h : (findRefSection tops).isEmpty
  · simp [h]
  · simp [h]

/-! Claim theorems -/

/-- C2 (amended): `_get_sections` recurses with no explicit maximum-depth
guard; for every input and starting level it returns the full tree,
preserving the exact nesting depth of the input — no truncation happens at
any depth. -/
theorem C2_no_depth_guard (level : Nat) (ss : PySecList) :
    infoDepthL (getSectionL level ss) = srcDepthL ss :=
  depth_preservedL level ss

/-- C2 (counterexample): no depth ceiling exists at which the extraction
truncates remaining subsections — no bound dominates the extracted depth,
and the concrete input `chain 1500`, nested 1501 levels deep, is extracted
to the full depth 1501 rather than being cut at any guard. -/
theorem C2_counterexample :
    (¬ ∃ D : Nat, ∀ ss : PySecList, infoDepthL (getSectionL 0 ss) ≤ D) ∧
    srcDepth1 (chain 1500) = 1501 ∧
    infoDepth1 (getSection 0 (chain 1500)) = 1501 := by
  refine ⟨?_, chain_depth 1500, ?_⟩
  · rintro ⟨D, hD⟩
    have h := hD (.cons (chain D) .nil)
    rw [depth_preservedL] at h
    simp [srcDepthL, chain_depth D] at h
  · rw [depth_preserved1]
    exact chain_depth 1500

/-- C3: every node produced by the section-tree extraction carries the text
of a source section, kept verbatim when its length is at most 500, and
replaced by exactly the first 500 characters followed by a single ellipsis
marker when longer — at every recursion level. -/
theorem C3_section_text_truncation (level : Nat) (ss : PySecList) (n : SectionInfo)
    (hn : n ∈ collectInfoL (getSectionL level ss)) :
    ∃ s, s ∈ collectSrcL ss ∧
      ((sectionText s).length ≤ 500 → infoText n = sectionText s) ∧
      (500 < (sectionText s).length →
        infoText n = (sectionText s).take 500 ++ ellipsis) := by
  obtain ⟨s, hs, hx⟩ := nodeFromL level ss n hn
  refine ⟨s, hs, ?_, ?_⟩
  · intro hle
    rw [hx, truncText, if_neg (by omega)]
  · intro hgt
    rw [hx, truncText, if_pos (by omega)]

/-- A one-node source tree whose section text has exactly 501 characters. -/
def sec501 : PySection := .mk (("S").toList) (List.replicate 501 'a') .nil

set_option maxRecDepth 10000 in
/-- Witness for C3: the 501-character section is excerpted to its first 500
characters plus one ellipsis marker. -/
theorem C3_witness :
    (∃ s, s ∈ collectSrcL (.cons sec501 .nil) ∧
      ((sectionText s).length ≤ 500 →
        infoText (getSection 0 sec501) = sectionText s) ∧
      (500 < (sectionText s).length →
        infoText (getSection 0 sec501) = (sectionText s).take 500 ++ ellipsis)) ∧
    infoText (getSection 0 sec501) = List.replicate 500 'a' ++ ellipsis :=
  ⟨C3_section_text_truncation 0 (.cons sec501 .nil) (getSection 0 sec501)
      (by simp [sec501, getSectionL, collectInfoL, collectInfo1, getSection]),
   by decide⟩

/-- C4: in every built snapshot the retained internal-link list has at most
100 entries and the separate total-count field equals the provider's full
link-set size, hence dominates the retained length; the degraded exception
branch keeps the same invariant. -/
theorem C4_link_cap_invariant (links : List (List Char)) :
    (getLinks links).internal_links.length ≤ 100 ∧
    (getLinks links).internal_links.length ≤ (getLinks links).internal_links_count ∧
    (getLinks links).internal_links_count = links.length ∧
    getLinksDegraded.internal_links.length ≤ 100 ∧
    getLinksDegraded.internal_links.length ≤ getLinksDegraded.internal_links_count := by
  refine ⟨?_, ?_, rfl, by simp [getLinksDegraded], by simp [getLinksDegraded]⟩
  · simp [getLinks, List.length_take]
  · simp [getLinks, List.length_take]

/-- C8: for every character classification `isalnum` (so in particular for
Python's Unicode-aware one, under which kanji and accented letters are
alphanumeric and therefore kept), the filename sanitizer keeps exactly the
characters that are alphanumeric per `isalnum` or are space, hyphen or
underscore, replaces every other character by a single underscore, and is
idempotent. -/
theorem C8_sanitize_idempotent (isalnum : Char → Bool) (t : List Char) :
    sanitize isalnum (sanitize isalnum t) = sanitize isalnum t ∧
    (∀ c : Char, (isalnum c || c == ' ' || c == '-' || c == '_') = true →
      sanitizeChar isalnum c = c) ∧
    (∀ c : Char, (isalnum c || c == ' ' || c == '-' || c == '_') = false →
      sanitizeChar isalnum c = '_') := by
  refine ⟨?_, ?_, ?_⟩
  · unfold sanitize
    rw [List.map_map]
    refine List.map_congr_left fun c _ => ?_
    simp only [Function.comp_apply]
    exact sanitizeChar_idem isalnum c
  · intro c hc
    simp [sanitizeChar, hc]
  · intro c hc
    simp [sanitizeChar, hc]

/-- A concrete stand-in classification for the witness: ASCII alphanumerics
plus the kanji of the source's own example title `機械学習`, so the witness
exercises a classification that, like Python's, keeps kanji. -/
def exIsAlnum (c : Char) : Bool :=
  c.isAlphanum || c == '機' || c == '械' || c == '学' || c == '習'

/-- Witness for C8 at the titles `機械学習` and `C++ (lang)` under the
kanji-keeping classification: the kanji are kept, `+` and `(` are replaced,
and sanitizing is idempotent. -/
theorem C8_witness :
    sanitize exIsAlnum (sanitize exIsAlnum (("機械学習").toList)) =
      sanitize exIsAlnum (("機械学習").toList) ∧
    sanitize exIsAlnum (sanitize exIsAlnum (("C++ (lang)").toList)) =
      sanitize exIsAlnum (("C++ (lang)").toList) ∧
    sanitizeChar exIsAlnum '機' = '機' ∧
    sanitizeChar exIsAlnum 'a' = 'a' ∧
    sanitizeChar exIsAlnum '+' = '_' :=
  ⟨(C8_sanitize_idempotent exIsAlnum (("機械学習").toList)).1,
   (C8_sanitize_idempotent exIsAlnum (("C++ (lang)").toList)).1,
   (C8_sanitize_idempotent exIsAlnum []).2.1 '機' (by decide),
   (C8_sanitize_idempotent exIsAlnum []).2.1 'a' (by decide),
   (C8_sanitize_idempotent exIsAlnum []).2.2 '+' (by decide)⟩

/-- C9: in every built snapshot the `has_references_section` flag is true
exactly when the `references_text` excerpt is nonempty; a first-matching
section whose text is empty yields the no-references result. -/
theorem C9_refs_flag_iff_text (tops : List PySection) :
    ((getReferences tops).has_references_section = true ↔
      (getReferences tops).references_text ≠ []) ∧
    (∀ s rest, titleMatches (sectionTitle s) = true → sectionText s = [] →
      getReferences (s :: rest) = ⟨false, []⟩) := by
  constructor
  · unfold getReferences
    by_cases h : (findRefSection tops).isEmpty
    · simp [h]
    · have hne : findRefSection tops ≠ [] := by
        simpa [List.isEmpty_iff] using h
      simp [h, List.take_eq_nil_iff, hne]
  · intro s rest hm hx
    unfold getReferences
    simp [findRefSection, hm, hx]

/-- A top-level section whose title matches the reference keywords but whose
text is empty. -/
def secEmptyRefs : PySection := .mk (("出典").toList) [] .nil

/-- Witness for C9: the matching-but-empty section yields the empty
no-references result, with the flag and the excerpt agreeing. -/
theorem C9_witness :
    ((getReferences [secEmptyRefs]).has_references_section = true ↔
      (getReferences [secEmptyRefs]).references_text ≠ []) ∧
    getReferences [secEmptyRefs] = ⟨false, []⟩ :=
  ⟨(C9_refs_flag_iff_text [secEmptyRefs]).1,
   (C9_refs_flag_iff_text [secEmptyRefs]).2 secEmptyRefs [] (by decide) rfl⟩

/-- C5: reference extraction scans the top-level sections in order; the
first title match wins and scanning stops (nothing after the first match
can change the result), no match yields the empty no-references result, and
at most the first 1000 characters of the matched text are retained. -/
theorem C5_references_extraction :
    (∀ tops : List PySection,
      (∀ s ∈ tops, titleMatches (sectionTitle s) = false) →
        getReferences tops = ⟨false, []⟩) ∧
    (∀ (pre : List PySection) (s : PySection) (post post2 : List PySection),
      (∀ s2 ∈ pre, titleMatches (sectionTitle s2) = false) →
      titleMatches (sectionTitle s) = true →
        findRefSection (pre ++ s :: post) = sectionText s ∧
        getReferences (pre ++ s :: post) = getReferences (pre ++ s :: post2)) ∧
    (∀ tops : List PySection,
      ((getReferences tops).references_text).length ≤ 1000) := by
  refine ⟨?_, ?_, refs_text_le_1000⟩
  · intro tops h
    have hf := findRef_none tops h
    simp [getReferences, hf]
  · intro pre s post post2 hpre hs
    have h1 := findRef_first pre s post hpre hs
    have h2 := findRef_first pre s post2 hpre hs
    exact ⟨h1, by simp [getReferences, h1, h2]⟩

/-- A top-level section whose title does not match the reference keywords. -/
def secPlain : PySection := .mk (("Overview").toList) (("x").toList) .nil

/-- A matching references section whose text is 1500 characters long. -/
def secLongRefs : PySection :=
  .mk (("References").toList) (List.replicate 1500 'r') .nil

/-- Witness for C5: a non-matching section yields the empty result; the
first match after a non-matching section wins independently of what
follows; the excerpt of the 1500-character section stays within 1000
characters. -/
theorem C5_witness :
    getReferences [secPlain] = ⟨false, []⟩ ∧
    findRefSection ([secPlain] ++ secLongRefs :: []) = sectionText secLongRefs ∧
    getReferences ([secPlain] ++ secLongRefs :: []) =
      getReferences ([secPlain] ++ secLongRefs :: [secPlain]) ∧
    ((getReferences [secLongRefs]).references_text).length ≤ 1000 :=
  ⟨C5_references_extraction.1 [secPlain] (by decide),
   (C5_references_extraction.2.1 [secPlain] secLongRefs [] [secPlain]
      (by decide) (by decide)).1,
   (C5_references_extraction.2.1 [secPlain] secLongRefs [] [secPlain]
      (by decide) (by decide)).2,
   C5_references_extraction.2.2 [secLongRefs]⟩

/-- C1 (amended): when the provider returns 150 internal links the built
snapshot retains exactly 100 of them while its total-count field equals
150, and the Markdown link block lists the first 50 links followed by an
indicator computed as the retained list's length minus 50, that is
`（他 50 件）` — not uncapped total minus 50. -/
theorem C1_links_markdown (links : List (List Char)) (h : links.length = 150) :
    (getLinks links).internal_links.length = 100 ∧
    (getLinks links).internal_links_count = 150 ∧
    mdLinksBlock (getLinks links) =
      ("## リンク情報\n\n").toList
        ++ ("**内部リンク総数**: ").toList ++ digits 150 ++ ("\n\n").toList
        ++ (("### 主要な内部リンク（最大100件）\n\n").toList
            ++ ((links.take 50).map (fun l => ("- ").toList ++ l ++ ['\n'])).flatten
            ++ (("\n（他 ").toList ++ digits 50 ++ (" 件）\n").toList))
        ++ ("\n---\n\n").toList := by
  have hlen : (links.take 100).length = 100 := by
    simp [List.length_take, h]
  have hne : ¬ (links.take 100).isEmpty = true := by
    simp [List.isEmpty_iff, ← List.length_eq_zero]
    omega
  refine ⟨hlen, by simp [getLinks, h], ?_⟩
  simp only [mdLinksBlock, getLinks, h, hlen, hne, if_false, Bool.false_eq_true,
    ↓reduceIte, List.take_take]
  norm_num

/-- Witness for C1 at 150 copies of the link name `x`. -/
theorem C1_witness :
    (List.replicate 150 (("x").toList)).length = 150 ∧
    ((getLinks (List.replicate 150 (("x").toList))).internal_links.length = 100 ∧
     (getLinks (List.replicate 150 (("x").toList))).internal_links_count = 150 ∧
     mdLinksBlock (getLinks (List.replicate 150 (("x").toList))) =
       ("## リンク情報\n\n").toList
         ++ ("**内部リンク総数**: ").toList ++ digits 150 ++ ("\n\n").toList
         ++ (("### 主要な内部リンク（最大100件）\n\n").toList
             ++ (((List.replicate 150 (("x").toList)).take 50).map
                  (fun l => ("- ").toList ++ l ++ ['\n'])).flatten
             ++ (("\n（他 ").toList ++ digits 50 ++ (" 件）\n").toList))
         ++ ("\n---\n\n").toList) :=
  ⟨by simp, C1_links_markdown (List.replicate 150 (("x").toList)) (by simp)⟩

set_option maxRecDepth 10000 in
/-- C1 (counterexample): with 150 provider links the Markdown link block
carries the indicator `（他 50 件）`, computed from the retained list's
length (100 − 50), and not `（他 100 件）` (150 − 50) as the claim states. -/
theorem C1_counterexample :
    (getLinks (List.replicate 150 (("x").toList))).internal_links.length = 100 ∧
    (getLinks (List.replicate 150 (("x").toList))).internal_links_count = 150 ∧
    containsSub (mdLinksBlock (getLinks (List.replicate 150 (("x").toList))))
      (("（他 50 件）").toList) = true ∧
    containsSub (mdLinksBlock (getLinks (List.replicate 150 (("x").toList))))
      (("（他 100 件）").toList) = false :=
  ⟨by decide, by decide, by decide, by decide⟩

/-- C10: when a snapshot's category list is empty, both the Markdown export
and the plain-text export omit the category block entirely — the block
contributes the empty string, so the full contents are exactly the other
blocks in source order, with no category heading and no separator for it. -/
theorem C10_empty_categories_omitted (d : ArticleData) (h : d.categories = []) :
    mdCategoriesBlock d.categories = [] ∧
    txtCategoriesBlock d.categories = [] ∧
    mdContent d = mdHeader d ++ mdSummaryBlock d ++ mdSectionsBlock d.sections
      ++ mdBodyBlock d ++ mdLinksBlock d.links ++ mdRefsBlock d.references ∧
    txtContent d = txtHeader d
      ++ ("【要約】\n").toList ++ d.summary ++ ("\n\n").toList ++ txtSep
      ++ ("【本文】\n").toList ++ d.full_text ++ ("\n\n").toList ++ txtSep
      ++ ("【リンク情報】\n").toList
      ++ ("内部リンク数: ").toList ++ digits d.links.internal_links_count
      ++ ("\n\n").toList := by
  have h1 : mdCategoriesBlock d.categories = [] := by
    simp [mdCategoriesBlock, h]
  have h2 : txtCategoriesBlock d.categories = [] := by
    simp [txtCategoriesBlock, h]
  refine ⟨h1, h2, ?_, ?_⟩
  · simp [mdContent, h1]
  · simp [txtContent, h2]

/-- A concrete snapshot with an empty category list. -/
def exSnapshotNoCats : ArticleData :=
  { title := ("T").toList
    pageid := 7
    url := ("https://example/T").toList
    canonical_url := ("https://example/T").toList
    language := ("ja").toList
    timestamp := ("2024-01-01T00:00:00").toList
    summary := ("s").toList
    full_text := ("b").toList
    categories := []
    sections := .nil
    links := { internal_links := [], internal_links_count := 0 }
    references := { has_references_section := false, references_text := [] }
    backlinks := [] }

/-- Witness for C10 at the concrete category-free snapshot. -/
theorem C10_witness :
    mdCategoriesBlock exSnapshotNoCats.categories = [] ∧
    txtCategoriesBlock exSnapshotNoCats.categories = [] ∧
    mdContent exSnapshotNoCats = mdHeader exSnapshotNoCats
      ++ mdSummaryBlock exSnapshotNoCats
      ++ mdSectionsBlock exSnapshotNoCats.sections
      ++ mdBodyBlock exSnapshotNoCats
      ++ mdLinksBlock exSnapshotNoCats.links
      ++ mdRefsBlock exSnapshotNoCats.references ∧
    txtContent exSnapshotNoCats = txtHeader exSnapshotNoCats
      ++ ("【要約】\n").toList ++ exSnapshotNoCats.summary ++ ("\n\n").toList ++ txtSep
      ++ ("【本文】\n").toList ++ exSnapshotNoCats.full_text ++ ("\n\n").toList ++ txtSep
      ++ ("【リンク情報】\n").toList
      ++ ("内部リンク数: ").toList ++ digits exSnapshotNoCats.links.internal_links_count
      ++ ("\n\n").toList :=
  C10_empty_categories_omitted exSnapshotNoCats rfl

theorem mdContent_starts_with_header (d : ArticleData) :
    ∃ r, mdContent d = ("# ").toList ++ d.title ++ ("\n\n").toList
      ++ ("**ページID**: ").toList ++ digits d.pageid ++ ("  \n").toList
      ++ ("**URL**: ").toList ++ d.url ++ ("  \n").toList
      ++ ("**言語**: ").toList ++ d.language ++ ("  \n").toList
      ++ ("**取得日時**: ").toList ++ d.timestamp ++ ("  \n\n").toList
      ++ ("---\n\n").toList ++ r :=
  ⟨mdSummaryBlock d ++ mdCategoriesBlock d.categories ++ mdSectionsBlock d.sections
     ++ mdBodyBlock d ++ mdLinksBlock d.links ++ mdRefsBlock d.references,
   by simp [mdContent, mdHeader]⟩

theorem txtContent_starts_with_header (d : ArticleData) :
    ∃ r, txtContent d = ("タイトル: ").toList ++ d.title ++ ['\n']
      ++ ("ページID: ").toList ++ digits d.pageid ++ ['\n']
      ++ ("URL: ").toList ++ d.url ++ ['\n']
      ++ ("言語: ").toList ++ d.language ++ ['\n']
      ++ ("取得日時: ").toList ++ d.timestamp ++ ['\n'] ++ txtSep ++ r :=
  ⟨("【要約】\n").toList ++ d.summary ++ ("\n\n").toList ++ txtSep
     ++ txtCategoriesBlock d.categories
     ++ ("【本文】\n").toList ++ d.full_text ++ ("\n\n").toList ++ txtSep
     ++ ("【リンク情報】\n").toList ++ ("内部リンク数: ").toList
     ++ digits d.links.internal_links_count ++ ("\n\n").toList,
   by simp [txtContent, txtHeader]⟩

/-- C6: for an existing title processed with format `all`, exactly three
artifacts are produced, their names share the sanitized stem of the title
and end in three pairwise distinct extensions, and all three artifacts are
rendered from the single snapshot `d` built once — with the title, page id,
URL, language and timestamp taken from that snapshot (the timestamp being
the value stamped at build time), so the three renderings cannot
disagree. -/
theorem C6_format_all_consistency (provider : List Char → Page)
    (isalnum : Char → Bool) (language now title : List Char)
    (h : (provider title).pageExists = true) :
    ∃ d : ArticleData,
      get_all_data language now (provider title) = some d ∧
      process_single provider isalnum language now .all title =
        [.mdFile (sanitize isalnum title ++ ("_complete.md").toList) (mdContent d),
         .jsonFile (sanitize isalnum title ++ ("_complete.json").toList) d,
         .txtFile (sanitize isalnum title ++ ("_complete.txt").toList) (txtContent d)] ∧
      (process_single provider isalnum language now .all title).length = 3 ∧
      ("_complete.md").toList ≠ ("_complete.json").toList ∧
      ("_complete.json").toList ≠ ("_complete.txt").toList ∧
      ("_complete.md").toList ≠ ("_complete.txt").toList ∧
      d.title = (provider title).title ∧
      d.pageid = (provider title).pageid ∧
      d.url = (provider title).fullurl ∧
      d.language = language ∧
      d.timestamp = now ∧
      (∃ r, mdContent d = ("# ").toList ++ d.title ++ ("\n\n").toList
        ++ ("**ページID**: ").toList ++ digits d.pageid ++ ("  \n").toList
        ++ ("**URL**: ").toList ++ d.url ++ ("  \n").toList
        ++ ("**言語**: ").toList ++ d.language ++ ("  \n").toList
        ++ ("**取得日時**: ").toList ++ d.timestamp ++ ("  \n\n").toList
        ++ ("---\n\n").toList ++ r) ∧
      (∃ r, txtContent d = ("タイトル: ").toList ++ d.title ++ ['\n']
        ++ ("ページID: ").toList ++ digits d.pageid ++ ['\n']
        ++ ("URL: ").toList ++ d.url ++ ['\n']
        ++ ("言語: ").toList ++ d.language ++ ['\n']
        ++ ("取得日時: ").toList ++ d.timestamp ++ ['\n'] ++ txtSep ++ r) := by
  refine ⟨{ title := (provider title).title
            pageid := (provider title).pageid
            url := (provider title).fullurl
            canonical_url := (provider title).canonicalurl
            language := language
            timestamp := now
            summary := (provider title).summary
            full_text := (provider title).text
            categories := getCategories (provider title)
            sections := getSectionL 0 (provider title).topSections
            links := getLinks (provider title).links
            references := getReferences (topSectionList (provider title).topSections)
            backlinks := [] },
    ?_, ?_, ?_, by decide, by decide, by decide,
    rfl, rfl, rfl, rfl, rfl, ?_, ?_⟩
  · simp [get_all_data, search_page, h]
  · simp [process_single, get_all_data, search_page, h,
      save_to_markdown, save_to_json, save_to_text]
  · simp [process_single, get_all_data, search_page, h]
  · exact mdContent_starts_with_header _
  · exact txtContent_starts_with_header _

/-- A concrete existing provider page. -/
def examplePage : Page :=
  { pageExists := true
    title := ("Python").toList
    pageid := 42
    fullurl := ("https://example/Python").toList
    canonicalurl := ("https://example/Python").toList
    summary := ("sum").toList
    text := ("body").toList
    categories := [("Cat1").toList]
    topSections := .cons (.mk (("History").toList) (("h").toList) .nil) .nil
    links := [("L1").toList, ("L2").toList] }

/-- A concrete missing provider page (`exists()` is false). -/
def missingPage : Page :=
  { examplePage with pageExists := false, title := ("Test Article").toList }

/-- A concrete provider: `Test Article` is missing, everything else resolves
to the example page. -/
def exProvider : List Char → Page := fun t =>
  if t = ("Test Article").toList then missingPage else examplePage

/-- Witness for C6: the concrete run with format `all` produces exactly
three artifacts. -/
theorem C6_witness :
    (process_single exProvider exIsAlnum (("ja").toList) (("2024-01-01").toList) .all
      (("Python").toList)).length = 3 :=
  ((C6_format_all_consistency exProvider exIsAlnum (("ja").toList)
      (("2024-01-01").toList) (("Python").toList) (by decide)).choose_spec).2.2.1

/-- C7: when the provider reports a title as missing the builder yields no
snapshot and no artifacts are produced for it, and a batch containing that
title together with a valid title still produces exactly the valid title's
artifacts, which are nonempty for every format. -/
theorem C7_notfound_batch (provider : List Char → Page) (isalnum : Char → Bool)
    (language now : List Char) (fmt : OutputFormat) (bad good : List Char)
    (hbad : (provider bad).pageExists = false)
    (hgood : (provider good).pageExists = true)
    (hbs : pyStrip bad = bad) (hgs : pyStrip good = good)
    (hbne : bad ≠ []) (hgne : good ≠ []) :
    get_all_data language now (provider bad) = none ∧
    process_single provider isalnum language now fmt bad = [] ∧
    process_multiple provider isalnum language now fmt [bad, good] =
      process_single provider isalnum language now fmt good ∧
    process_single provider isalnum language now fmt good ≠ [] := by
  have hnone : get_all_data language now (provider bad) = none := by
    simp [get_all_data, search_page, hbad]
  have hps : process_single provider isalnum language now fmt bad = [] := by
    simp [process_single, hnone]
  refine ⟨hnone, hps, ?_, ?_⟩
  · simp [process_multiple, hbs, hgs, hbne, hgne, hps]
  · cases fmt <;>
      simp [process_single, get_all_data, search_page, hgood]

/-- Witness for C7: the missing `Test Article` produces nothing and the
batch `[Test Article, Python]` still produces the `Python` artifacts. -/
theorem C7_witness :
    get_all_data (("ja").toList) (("2024-01-01").toList)
      (exProvider (("Test Article").toList)) = none ∧
    process_single exProvider exIsAlnum (("ja").toList) (("2024-01-01").toList) .all
      (("Test Article").toList) = [] ∧
    process_multiple exProvider exIsAlnum (("ja").toList) (("2024-01-01").toList) .all
      [("Test Article").toList, ("Python").toList] =
      process_single exProvider exIsAlnum (("ja").toList) (("2024-01-01").toList) .all
        (("Python").toList) ∧
    process_single exProvider exIsAlnum (("ja").toList) (("2024-01-01").toList) .all
      (("Python").toList) ≠ [] :=
  C7_notfound_batch exProvider exIsAlnum (("ja").toList) (("2024-01-01").toList) .all
    (("Test Article").toList) (("Python").toList)
    (by decide) (by decide) (by decide) (by decide) (by decide) (by decide)

end WikipediaScraper
